import Mathlib

/-!
Verification of the calendar natural-language query parser
(`src/query_parser.py`, class `CalendarQueryParser`).

The parser is a pure function of the query string, the optional timezone
hint, and the current time.  We embed it shallowly:

* Python `datetime` values become the structure `DT`: a proleptic-Gregorian
  day number (`days : Int`, with day 0 = 1970-01-01, matching the usual
  civil-date arithmetic) plus the four time-of-day fields that the source
  manipulates (`hour`, `minute`, `second`, `microsecond`).  `timedelta(days=k)`
  is day-number addition (pytz-style wall-clock arithmetic, exactly what the
  source's same-tzinfo `+`/`-` does), and Python's `weekday()` is
  `(days + 3) mod 7` (day 0 = 1970-01-01 was a Thursday = 3).
* Python regular expressions are hand-compiled: every pattern in the source
  uses only word boundaries, literals, `\s+`, `.*`, digit runs and
  alternation, so each is written with the matcher combinators below, which
  enumerate end positions in the regex engine's backtracking order
  (leftmost start, greedy repetition, left-to-right alternation).
* The clock reading `datetime.now(tz)` (src line 96) is made an explicit
  parameter `now : DT`; the pytz timezone database becomes a parameter
  `tzdb : List String` of recognized zone names, and a raised
  `UnknownTimeZoneError` becomes a failed lookup, which the source catches
  and replaces by the default zone.
* `dateutil.parser.parse` is modelled on exactly the strings the source's
  six date-literal patterns can produce: numeric dates (month-first, with
  numbers above 12 forced to be the day, two-digit years windowed),
  ISO-order dates, and month-name dates whose missing year defaults to 1900
  (the default the source itself documents and tests for on line 266); a
  `ValueError` on an impossible date (e.g. February 31) becomes `none`,
  which the source catches and skips.  `tzlocal` detection is not modelled:
  the default zone is the constant `default_timezone`, and no statement
  below depends on its value.
* Attaching tzinfo objects to datetimes (`localize`) is not modelled beyond
  the resolution step: the source uses the resolved zone only to read the
  clock and to stamp results, both of which are represented by the injected
  `now`; `ParsedQuery.timezone` echoes the caller's hint verbatim, exactly
  as the source's result dictionaries do.
-/

set_option maxRecDepth 8000

namespace CalendarParser

/-! ## Characters and text -/

abbrev Text := List Char

/-- Python `\w` on the ASCII range: letters, digits and underscore. -/
def isWordChar (c : Char) : Bool := c.isAlphanum || c = '_'

/-- Python `\s` on the ASCII range. -/
def isSpaceChar (c : Char) : Bool :=
  c = ' ' || c = '\t' || c = '\n' || c = '\r' || c = '\x0b' || c = '\x0c'

def isDigitChar (c : Char) : Bool := c.isDigit

/-- ASCII lower-casing, modelling `str.lower()` on the queries considered. -/
def asciiLower (c : Char) : Char :=
  if 'A' ≤ c && c ≤ 'Z' then Char.ofNat (c.toNat + 32) else c

def lowerText (s : Text) : Text := s.map asciiLower

def strText (s : String) : Text := s.data

def lowerStr (s : String) : String := ⟨lowerText s.data⟩

def charAt (s : Text) (i : Nat) : Option Char := s.get? i

/-- Is a word character at position `i` (false past the ends)? -/
def wordAtB (s : Text) (i : Nat) : Bool :=
  match charAt s i with
  | some c => isWordChar c
  | none => false

/-- Python's `\b`: a word boundary between positions `i-1` and `i`. -/
def boundary (s : Text) (i : Nat) : Bool :=
  (if i = 0 then false else wordAtB s (i - 1)) != wordAtB s i

def isPrefixAt (s : Text) (i : Nat) (w : Text) : Bool :=
  w.isPrefixOf (s.drop i)

/-- Length of the maximal run of characters satisfying `p` starting at `i`. -/
def maxRun (s : Text) (i : Nat) (p : Char → Bool) : Nat :=
  ((s.drop i).takeWhile p).length

/-! ## Matcher combinators

A matcher sends a text and a start position to the list of possible end
positions, ordered the way Python's backtracking regex engine would try
them (greedy repetitions: longest first; alternations and options:
left branch / present branch first). -/

def M := Text → Nat → List Nat

/-- Literal string. -/
def mLit (w : Text) : M := fun s i =>
  if isPrefixAt s i w then [i + w.length] else []

def mStr (w : String) : M := mLit (strText w)

/-- Word boundary `\b` (consumes nothing). -/
def mBound : M := fun s i => if boundary s i then [i] else []

/-- Sequencing of a list of matchers. -/
def mSeqs (ms : List M) : M := fun s i =>
  ms.foldl (fun acc m => acc.flatMap (fun j => m s j)) [i]

/-- Ordered alternation. -/
def mAlts (ms : List M) : M := fun s i => ms.flatMap (fun m => m s i)

/-- Greedy option `x?`. -/
def mOpt (m : M) : M := fun s i => m s i ++ [i]

/-- Greedy `p+` over a single-character class. -/
def mPlusC (p : Char → Bool) : M := fun s i =>
  let n := maxRun s i p
  (List.range n).map (fun k => i + (n - k))

/-- Greedy `p*` over a single-character class. -/
def mStarC (p : Char → Bool) : M := fun s i =>
  let n := maxRun s i p
  (List.range (n + 1)).map (fun k => i + (n - k))

/-- Greedy bounded repetition `p{lo,hi}` over a single-character class. -/
def mRepC (p : Char → Bool) (lo hi : Nat) : M := fun s i =>
  let n := min (maxRun s i p) hi
  if n < lo then [] else (List.range (n - lo + 1)).map (fun k => i + (n - k))

/-- `\s+`. -/
def mWs : M := mPlusC isSpaceChar

/-- `.*` (any characters except newline). -/
def mDotStar : M := mStarC (fun c => c != '\n')

def matchAt (m : M) (s : Text) (i : Nat) : Bool := !(m s i).isEmpty

/-- `re.search`: does the pattern match starting anywhere in the text? -/
def reSearch (m : M) (s : Text) : Bool :=
  (List.range (s.length + 1)).any (fun i => matchAt m s i)

/-! ## Calendar arithmetic -/

/-- Day number of a civil date (0 = 1970-01-01), proleptic Gregorian. -/
def daysFromCivil (y : Int) (m d : Nat) : Int :=
  let y' : Int := if m ≤ 2 then y - 1 else y
  let era : Int := y'.fdiv 400
  let yoe : Int := y' - era * 400
  let mp : Nat := if 2 < m then m - 3 else m + 9
  let doy : Nat := (153 * mp + 2) / 5 + d - 1
  let doe : Int := yoe * 365 + yoe.fdiv 4 - yoe.fdiv 100 + (doy : Int)
  era * 146097 + doe - 719468

/-- Year of the civil date with the given day number. -/
def yearOfDays (days : Int) : Int :=
  let z : Int := days + 719468
  let era : Int := z.fdiv 146097
  let doe : Int := z - era * 146097
  let yoe : Int := (doe - doe.fdiv 1460 + doe.fdiv 36524 - doe.fdiv 146096).fdiv 365
  let y : Int := yoe + era * 400
  let doy : Int := doe - (365 * yoe + yoe.fdiv 4 - yoe.fdiv 100)
  let mp : Int := (5 * doy + 2).fdiv 153
  let m : Int := if mp < 10 then mp + 3 else mp - 9
  if m ≤ 2 then y + 1 else y

def isLeap (y : Int) : Bool :=
  y.emod 4 = 0 && (y.emod 100 ≠ 0 || y.emod 400 = 0)

def daysInMonth (y : Int) (m : Nat) : Nat :=
  if m = 2 then (if isLeap y then 29 else 28)
  else if m = 4 || m = 6 || m = 9 || m = 11 then 30
  else 31

/-- Python's `date.weekday()`: 0 = Monday .. 6 = Sunday. -/
def weekdayOf (days : Int) : Int := (days + 3) % 7

/-- A Python `datetime` as the source manipulates it: civil day number plus
time-of-day fields.  -/
structure DT where
  days : Int
  hour : Nat
  minute : Nat
  second : Nat
  microsecond : Nat
deriving DecidableEq, Repr

/-- `t + timedelta(days=k)` (wall-clock arithmetic, as pytz-aware `+` does). -/
def DT.addDays (t : DT) (k : Int) : DT := { t with days := t.days + k }

/-- `t.replace(hour=0, minute=0, second=0, microsecond=0)`. -/
def DT.midnight (t : DT) : DT := { t with hour := 0, minute := 0, second := 0, microsecond := 0 }

def DT.weekday (t : DT) : Int := weekdayOf t.days

/-! ## The rule tables (`self.patterns`, `self.day_patterns`)

Each Python pattern string is hand-compiled into a matcher.  `word a` is
`\ba\b`; `phraseWW a b` is `\ba\s+b\b`; `wordGapWord a b` is `\ba.*b\b`
(note: no boundary between `a` and the gap, exactly as in the source). -/

def word (a : String) : M := mSeqs [mBound, mStr a, mBound]

def phraseWW (a b : String) : M := mSeqs [mBound, mStr a, mWs, mStr b, mBound]

def wordGapWord (a b : String) : M := mSeqs [mBound, mStr a, mDotStar, mStr b, mBound]

/-- Date separator class: a slash or a hyphen. -/
def mSep : M := fun s i =>
  match charAt s i with
  | some c => if c = '/' || c = '-' then [i + 1] else []
  | none => []

/-- Full month names with their numbers, in the source's order. -/
def monthsFull : List (String × Nat) :=
  [("january", 1), ("february", 2), ("march", 3), ("april", 4), ("may", 5),
   ("june", 6), ("july", 7), ("august", 8), ("september", 9), ("october", 10),
   ("november", 11), ("december", 12)]

/-- Three-letter month abbreviations with their numbers, in the source's order. -/
def monthsAbbr : List (String × Nat) :=
  [("jan", 1), ("feb", 2), ("mar", 3), ("apr", 4), ("may", 5), ("jun", 6),
   ("jul", 7), ("aug", 8), ("sep", 9), ("oct", 10), ("nov", 11), ("dec", 12)]

def monthAlt (ms : List (String × Nat)) : M := mAlts (ms.map (fun p => mStr p.1))

def patterns_today : List M :=
  [word "today", phraseWW "this" "day", wordGapWord "what" "today",
   wordGapWord "today" "schedule", wordGapWord "today" "events",
   wordGapWord "today" "appointments"]

def patterns_tomorrow : List M :=
  [word "tomorrow", phraseWW "next" "day", wordGapWord "what" "tomorrow",
   wordGapWord "tomorrow" "schedule", wordGapWord "tomorrow" "events",
   wordGapWord "tomorrow" "appointments"]

def patterns_yesterday : List M :=
  [word "yesterday", phraseWW "previous" "day", wordGapWord "yesterday" "events"]

def patterns_this_week : List M :=
  [phraseWW "this" "week",
   mSeqs [mBound, mStr "this", mWs, mStr "week", mDotStar, mStr "events", mBound],
   mSeqs [mBound, mStr "this", mWs, mStr "week", mDotStar, mStr "schedule", mBound],
   phraseWW "weekly" "schedule"]

def patterns_next_week : List M :=
  [phraseWW "next" "week",
   mSeqs [mBound, mStr "next", mWs, mStr "week", mDotStar, mStr "events", mBound],
   mSeqs [mBound, mStr "next", mWs, mStr "week", mDotStar, mStr "schedule", mBound]]

def patterns_upcoming : List M :=
  [word "upcoming", phraseWW "coming" "up", wordGapWord "next" "events",
   wordGapWord "future" "events", wordGapWord "what" "next"]

def patterns_specific_date : List M :=
  [mSeqs [mBound, mRepC isDigitChar 1 2, mSep, mRepC isDigitChar 1 2, mSep,
          mRepC isDigitChar 2 4, mBound],
   mSeqs [mBound, mRepC isDigitChar 4 4, mSep, mRepC isDigitChar 1 2, mSep,
          mRepC isDigitChar 1 2, mBound],
   mSeqs [mBound, monthAlt monthsFull, mWs, mRepC isDigitChar 1 2, mBound],
   mSeqs [mBound, monthAlt monthsAbbr, mWs, mRepC isDigitChar 1 2, mBound],
   mSeqs [mBound, mRepC isDigitChar 1 2, mWs, monthAlt monthsFull, mBound],
   mSeqs [mBound, mRepC isDigitChar 1 2, mWs, monthAlt monthsAbbr, mBound]]

/-- `self.day_patterns`, in the source's (insertion) order monday..sunday. -/
def day_patterns : List (String × List M) :=
  [("monday", [word "monday", word "mon"]),
   ("tuesday", [word "tuesday", word "tue", word "tues"]),
   ("wednesday", [word "wednesday", word "wed"]),
   ("thursday", [word "thursday", word "thu", word "thur", word "thurs"]),
   ("friday", [word "friday", word "fri"]),
   ("saturday", [word "saturday", word "sat"]),
   ("sunday", [word "sunday", word "sun"])]

/-- `_matches_patterns`: does the text match any pattern in the list? -/
def matches_patterns (text : Text) (pats : List M) : Bool :=
  pats.any (fun m => reSearch m text)

/-! ## Quantity extraction (`_extract_number_of_days`, `_extract_max_results`)

These need the numeric value of a captured digit group, so the three
patterns involved are compiled into searches returning that value.  In each
of them the `(\d+)` group is preceded and followed by characters disjoint
from digits, so the captured run is the maximal digit run at its start
position, exactly as the greedy engine captures it. -/

/-- Value and end position of the maximal digit run at `i` (none if empty). -/
def digitsRunVal (s : Text) (i : Nat) : Option (Nat × Nat) :=
  let run := (s.drop i).takeWhile isDigitChar
  if run.isEmpty then none
  else some (run.foldl (fun acc c => acc * 10 + (c.toNat - 48)) 0, i + run.length)

/-- Value of exactly `n` digits at `i` (no constraint on what follows). -/
def digitsFixed (s : Text) (i n : Nat) : Option Nat :=
  if (List.range n).all (fun k => match charAt s (i + k) with
      | some c => c.isDigit
      | none => false) then
    some ((List.range n).foldl (fun acc k =>
      acc * 10 + (match charAt s (i + k) with
        | some c => c.toNat - 48
        | none => 0)) 0)
  else none

/-- Tail `\s+days?\b` shared by both day-count patterns. -/
def daysTail : M := mSeqs [mWs, mStr "day", mOpt (mStr "s"), mBound]

/-- Leftmost search for `\bnext\s+(\d+)\s+days?\b`, returning the group. -/
def searchNextNDays (s : Text) : Option Nat :=
  (List.range (s.length + 1)).findSome? (fun i =>
    ((mSeqs [mBound, mStr "next", mWs]) s i).findSome? (fun e =>
      (digitsRunVal s e).bind (fun p =>
        if (daysTail s p.2).isEmpty then none else some p.1)))

/-- Leftmost search for `\b(\d+)\s+days?\b`, returning the group. -/
def searchNDays (s : Text) : Option Nat :=
  (List.range (s.length + 1)).findSome? (fun i =>
    if boundary s i then
      (digitsRunVal s i).bind (fun p =>
        if (daysTail s p.2).isEmpty then none else some p.1)
    else none)

/-- `re.search` for the exact phrases `\bnext\s+week\b` / `\bthis\s+week\b`. -/
def hasWeekPhrase (s : Text) : Bool :=
  reSearch (phraseWW "next" "week") s || reSearch (phraseWW "this" "week") s

/-- `_extract_number_of_days`, with the source's search order. -/
def extract_number_of_days (text : Text) : Nat :=
  if hasWeekPhrase text then 7
  else
    match searchNextNDays text with
    | some n => n
    | none =>
      match searchNDays text with
      | some n => n
      | none => 7

/-- Prefix `\b(?:show|first|next)\s+(?:me\s+)?` of the max-results pattern. -/
def maxResPrefix : M :=
  mSeqs [mBound, mAlts [mStr "show", mStr "first", mStr "next"], mWs,
         mOpt (mSeqs [mStr "me", mWs])]

/-- Suffix `\s+(?:events?|appointments?|meetings?)\b` of the max-results pattern. -/
def maxResSuffix : M :=
  mSeqs [mWs,
         mAlts [mSeqs [mStr "event", mOpt (mStr "s")],
                mSeqs [mStr "appointment", mOpt (mStr "s")],
                mSeqs [mStr "meeting", mOpt (mStr "s")]],
         mBound]

/-- Leftmost search for the max-results pattern, returning the group. -/
def searchMaxResults (s : Text) : Option Nat :=
  (List.range (s.length + 1)).findSome? (fun i =>
    (maxResPrefix s i).findSome? (fun e =>
      (digitsRunVal s e).bind (fun p =>
        if (maxResSuffix s p.2).isEmpty then none else some p.1)))

/-- `_extract_max_results`: the extracted count capped at 50, default 10. -/
def extract_max_results (text : Text) : Nat :=
  match searchMaxResults text with
  | some n => min n 50
  | none => 10

/-! ## Specific-date extraction (`_extract_specific_date`)

The six date-literal patterns are searched in order on the original text
(`re.IGNORECASE`, modelled by lower-casing a copy); the matched substring
is handed to `dateutil.parser.parse`.  Each search below returns the
regex's group split directly — the component numbers `dateutil` would read
off the matched substring — enumerating candidates in backtracking order.
A `dateutil` `ValueError` (impossible date) is `none`; the source catches
it and moves on to the next pattern, which is exactly what chaining the
per-pattern results with `<|>` does. -/

/-- All months of the alternation matching at `i`, with their numbers and
end positions, in the alternation's order. -/
def monthCands (ms : List (String × Nat)) (s : Text) (i : Nat) : List (Nat × Nat) :=
  ms.filterMap (fun p =>
    if isPrefixAt s i (strText p.1) then some (p.2, i + p.1.length) else none)

/-- Candidates for `(?:,?\s+\d{4})?` at `i` in greedy order: with a comma,
without a comma, then the group absent. -/
def yearCandsComma (s : Text) (i : Nat) : List (Option Nat × Nat) :=
  (((if charAt s i = some ',' then [i + 1] else []) ++ [i]).flatMap (fun j =>
    (mWs s j).filterMap (fun k =>
      (digitsFixed s k 4).map (fun y => (some y, k + 4))))) ++ [(none, i)]

/-- Candidates for `(?:\s+\d{4})?` at `i` in greedy order. -/
def yearCandsPlain (s : Text) (i : Nat) : List (Option Nat × Nat) :=
  ((mWs s i).filterMap (fun k =>
    (digitsFixed s k 4).map (fun y => (some y, k + 4)))) ++ [(none, i)]

/-- Pattern 1, `\b(\d{1,2} SEP \d{1,2} SEP \d{2,4})\b` (SEP a slash or hyphen), at start `i`. -/
def numDateAt (s : Text) (i : Nat) : Option (Nat × Nat × Nat) :=
  if boundary s i then
    [2, 1].findSome? (fun la => (digitsFixed s i la).bind (fun a =>
      if !(mSep s (i + la)).isEmpty then
        [2, 1].findSome? (fun lb => (digitsFixed s (i + la + 1) lb).bind (fun b =>
          if !(mSep s (i + la + 1 + lb)).isEmpty then
            [4, 3, 2].findSome? (fun ly =>
              (digitsFixed s (i + la + 1 + lb + 1) ly).bind (fun y =>
                if boundary s (i + la + 1 + lb + 1 + ly) then some (a, b, y)
                else none))
          else none))
      else none))
  else none

def numDateSearch (s : Text) : Option (Nat × Nat × Nat) :=
  (List.range (s.length + 1)).findSome? (numDateAt s)

/-- Pattern 2, `\b(\d{4} SEP \d{1,2} SEP \d{1,2})\b`, at start `i`. -/
def isoDateAt (s : Text) (i : Nat) : Option (Nat × Nat × Nat) :=
  if boundary s i then
    (digitsFixed s i 4).bind (fun y =>
      if !(mSep s (i + 4)).isEmpty then
        [2, 1].findSome? (fun lm => (digitsFixed s (i + 5) lm).bind (fun m =>
          if !(mSep s (i + 5 + lm)).isEmpty then
            [2, 1].findSome? (fun ld =>
              (digitsFixed s (i + 5 + lm + 1) ld).bind (fun d =>
                if boundary s (i + 5 + lm + 1 + ld) then some (y, m, d)
                else none))
          else none))
      else none)
  else none

def isoDateSearch (s : Text) : Option (Nat × Nat × Nat) :=
  (List.range (s.length + 1)).findSome? (isoDateAt s)

/-- Patterns 3/4, `\b(MONTH\s+\d{1,2}(?:,?\s+\d{4})?)\b`, at start `i`;
returns (month, day, optional year). -/
def monthDayAt (ms : List (String × Nat)) (s : Text) (i : Nat) :
    Option (Nat × Nat × Option Nat) :=
  if boundary s i then
    (monthCands ms s i).findSome? (fun mc =>
      (mWs s mc.2).findSome? (fun e2 =>
        [2, 1].findSome? (fun ld => (digitsFixed s e2 ld).bind (fun d =>
          (yearCandsComma s (e2 + ld)).findSome? (fun yc =>
            if boundary s yc.2 then some (mc.1, d, yc.1) else none)))))
  else none

def monthDaySearch (ms : List (String × Nat)) (s : Text) :
    Option (Nat × Nat × Option Nat) :=
  (List.range (s.length + 1)).findSome? (monthDayAt ms s)

/-- Patterns 5/6, `\b(\d{1,2}\s+MONTH(?:\s+\d{4})?)\b`, at start `i`;
returns (month, day, optional year). -/
def dayMonthAt (ms : List (String × Nat)) (s : Text) (i : Nat) :
    Option (Nat × Nat × Option Nat) :=
  if boundary s i then
    [2, 1].findSome? (fun ld => (digitsFixed s i ld).bind (fun d =>
      (mWs s (i + ld)).findSome? (fun e2 =>
        (monthCands ms s e2).findSome? (fun mc =>
          (yearCandsPlain s mc.2).findSome? (fun yc =>
            if boundary s yc.2 then some (mc.1, d, yc.1) else none)))))
  else none

def dayMonthSearch (ms : List (String × Nat)) (s : Text) :
    Option (Nat × Nat × Option Nat) :=
  (List.range (s.length + 1)).findSome? (dayMonthAt ms s)

/-- Two-digit years are windowed as `dateutil` does; longer literals are
taken as written. -/
def convertYear (y : Nat) : Nat :=
  if y < 100 then (if y < 69 then 2000 + y else 1900 + y) else y

/-- Would `datetime(y, m, d)` construct, or raise `ValueError`? -/
def validDate (y : Int) (m d : Nat) : Bool :=
  1 ≤ m && m ≤ 12 && 1 ≤ d && d ≤ daysInMonth y m

/-- `dateutil` on a numeric `a/b/y` literal: values above 12 are forced to
be the day (month-first otherwise); an impossible date raises. -/
def dateutilNumeric (a b y0 : Nat) : Option (Int × Nat × Nat) :=
  if 12 < a && 12 < b then none
  else
    let m := if 12 < a then b else a
    let d := if 12 < a then a else b
    let y : Int := (convertYear y0 : Nat)
    if validDate y m d then some (y, m, d) else none

/-- `dateutil` on a `y/m/d` literal with a four-digit year. -/
def dateutilISO (y m d : Nat) : Option (Int × Nat × Nat) :=
  if validDate (y : Int) m d then some ((y : Int), m, d) else none

/-- `dateutil` on a month-name literal: a missing year becomes the default
year 1900 (the default the source checks for); an impossible date raises. -/
def dateutilMonthDay (m d : Nat) (oy : Option Nat) : Option (Int × Nat × Nat) :=
  let y : Int := ((oy.getD 1900 : Nat) : Int)
  if validDate y m d then some (y, m, d) else none

/-- `_extract_specific_date`: try the six patterns in order; on a parse
failure continue with the next pattern; substitute the current year for the
1900 default; normalize to midnight. -/
def extract_specific_date (text : Text) (now : DT) : Option DT :=
  let s := lowerText text
  let parsed : Option (Int × Nat × Nat) :=
    ((numDateSearch s).bind (fun t => dateutilNumeric t.1 t.2.1 t.2.2)) <|>
    ((isoDateSearch s).bind (fun t => dateutilISO t.1 t.2.1 t.2.2)) <|>
    ((monthDaySearch monthsFull s).bind (fun t => dateutilMonthDay t.1 t.2.1 t.2.2)) <|>
    ((monthDaySearch monthsAbbr s).bind (fun t => dateutilMonthDay t.1 t.2.1 t.2.2)) <|>
    ((dayMonthSearch monthsFull s).bind (fun t => dateutilMonthDay t.1 t.2.1 t.2.2)) <|>
    ((dayMonthSearch monthsAbbr s).bind (fun t => dateutilMonthDay t.1 t.2.1 t.2.2))
  match parsed with
  | some (y, m, d) =>
    let y2 : Int := if y = 1900 then yearOfDays now.days else y
    some ⟨daysFromCivil y2 m d, 0, 0, 0, 0⟩
  | none => none

/-! ## Weekday extraction and resolution -/

/-- `_extract_day_of_week`: scan the weekday table in its fixed order and
return the first day any of whose aliases matches. -/
def extract_day_of_week (text : Text) : Option String :=
  day_patterns.findSome? (fun p =>
    if matches_patterns text p.2 then some p.1 else none)

/-- The `weekdays` dictionary of `_get_next_weekday`. -/
def weekdays_ordinal (day : String) : Option Int :=
  if day = "monday" then some 0
  else if day = "tuesday" then some 1
  else if day = "wednesday" then some 2
  else if day = "thursday" then some 3
  else if day = "friday" then some 4
  else if day = "saturday" then some 5
  else if day = "sunday" then some 6
  else none

/-- `_get_next_weekday`: next strictly-future occurrence of the weekday. -/
def get_next_weekday (current_date : DT) (target_day : String) : DT :=
  match weekdays_ordinal (lowerStr target_day) with
  | none => current_date
  | some target_weekday =>
    let days_ahead := target_weekday - current_date.weekday
    let days_ahead2 := if days_ahead ≤ 0 then days_ahead + 7 else days_ahead
    (current_date.addDays days_ahead2).midnight

/-! ## Timezone resolution and the parser -/

/-- Default zone (`tzlocal` probing is environment-dependent and not
modelled; nothing below depends on this value). -/
def default_timezone : String := "UTC"

/-- `_parse_timezone`: empty/absent hints and unknown identifiers fall back
to the default zone; `pytz.timezone` is lookup in the zone-name list. -/
def parse_timezone (tzdb : List String) (timezone_str : Option String) : String :=
  match timezone_str with
  | none => default_timezone
  | some s =>
    if s = "" then default_timezone
    else if tzdb.contains s then s else default_timezone

/-- The intents a query can resolve to (the keys each result dictionary of
the source carries for its `intent` value). -/
inductive Intent where
  | specific_date (date : DT)
  | date_range (start_date end_date : DT)
  | upcoming_events (days_ahead max_results : Nat)
deriving DecidableEq, Repr

/-- The parser's result: the intent plus the `timezone` and
`original_query` fields every result dictionary carries.  `timezone`
echoes the caller's hint verbatim. -/
structure ParsedQuery where
  intent : Intent
  timezone : Option String
  original_query : String
deriving DecidableEq, Repr

/-- `parse_query`: the full classification / extraction dispatch of the
source, with the clock reading `datetime.now(tz)` injected as `now`. -/
def parse_query (tzdb : List String) (query : String) (timezone : Option String)
    (now : DT) : ParsedQuery :=
  let query_lower := lowerText (strText query)
  let _tz := parse_timezone tzdb timezone
  if matches_patterns query_lower patterns_today then
    ⟨.specific_date now.midnight, timezone, query⟩
  else if matches_patterns query_lower patterns_tomorrow then
    ⟨.specific_date (now.addDays 1).midnight, timezone, query⟩
  else if matches_patterns query_lower patterns_yesterday then
    ⟨.specific_date (now.addDays (-1)).midnight, timezone, query⟩
  else if matches_patterns query_lower patterns_this_week then
    let start_of_week := now.addDays (-now.weekday)
    let end_of_week := start_of_week.addDays 6
    ⟨.date_range start_of_week.midnight
      { end_of_week with hour := 23, minute := 59, second := 59, microsecond := 999999 },
      timezone, query⟩
  else if matches_patterns query_lower patterns_next_week then
    let next_monday := now.addDays (7 - now.weekday)
    let next_sunday := next_monday.addDays 6
    ⟨.date_range next_monday.midnight
      { next_sunday with hour := 23, minute := 59, second := 59, microsecond := 999999 },
      timezone, query⟩
  else if matches_patterns query_lower patterns_upcoming then
    ⟨.upcoming_events (extract_number_of_days query_lower)
      (extract_max_results query_lower), timezone, query⟩
  else
    match (if matches_patterns query_lower patterns_specific_date then
             extract_specific_date (strText query) now
           else none) with
    | some parsed_date => ⟨.specific_date parsed_date, timezone, query⟩
    | none =>
      match extract_day_of_week query_lower with
      | some day => ⟨.specific_date (get_next_weekday now day), timezone, query⟩
      | none => ⟨.upcoming_events 7 10, timezone, query⟩

end CalendarParser

namespace CalendarParser

/-! ## Shared lemmas -/

/-- The max-results extractor caps its value at 50 and defaults to 10. -/
theorem extract_max_results_le (t : Text) : extract_max_results t ≤ 50 := by
  unfold extract_max_results
  split
  · exact Nat.min_le_right _ 50
  · omega

/-! ## The claims -/

/-- C1: for every timezone database, query string (empty, whitespace-only
and unrelated content included), timezone hint (malformed identifiers
included) and clock reading, `parse_query` yields a `ParsedQuery` carrying
exactly one intent (the closed `Intent` variant) that echoes the query and
the hint verbatim.  Totality of this Lean function — in which every
fallible sub-step of the source (timezone lookup, date parsing) is
modelled by an `Option` with the source's fallback — is the embedded form
of "never raises an exception to the caller". -/
theorem C1_parse_query_total (tzdb : List String) (q : String)
    (hint : Option String) (now : DT) :
    (parse_query tzdb q hint now).original_query = q ∧
    (parse_query tzdb q hint now).timezone = hint := by
  simp only [parse_query]
  constructor <;> (repeat' split) <;> rfl

/-- C2: the parser's output depends on the clock sample `datetime.now(tz)`
taken inside `parse_query` (src/query_parser.py line 96): two calls with
identical query and hint but clock readings one day apart disagree.  The
source's `parse_query(self, query, timezone=None)` takes no `now`
argument, so the injectable-parameter interface the claim describes is not
what the code implements; determinism holds only relative to the internal
clock sample, made explicit as `now` in this embedding. -/
theorem C2_output_depends_on_clock :
    parse_query [] "today" none ⟨daysFromCivil 2025 8 11, 9, 0, 0, 0⟩ ≠
    parse_query [] "today" none ⟨daysFromCivil 2025 8 12, 9, 0, 0, 0⟩ := by decide

/-- C3: the category chain tests `today` first, so every query matching a
today-pattern — even one also containing a literal date substring —
produces the `today` classification (`SpecificDate` at `now`'s midnight),
never a specific-date intent built from the literal. -/
theorem C3_today_beats_literal (tzdb : List String) (q : String)
    (hint : Option String) (now : DT)
    (h : matches_patterns (lowerText (strText q)) patterns_today = true) :
    parse_query tzdb q hint now = ⟨.specific_date now.midnight, hint, q⟩ := by
  unfold parse_query
  simp [h]

/-- C3 witness: `"today at noon on 2025-08-12"` matches both a today
pattern and a literal-date pattern, and classifies as `today`. -/
theorem C3_today_beats_literal_witness :
    matches_patterns (lowerText (strText "today at noon on 2025-08-12")) patterns_today = true ∧
    matches_patterns (lowerText (strText "today at noon on 2025-08-12")) patterns_specific_date = true ∧
    parse_query [] "today at noon on 2025-08-12" none ⟨daysFromCivil 2025 8 13, 12, 0, 0, 0⟩ =
      ⟨.specific_date ⟨daysFromCivil 2025 8 13, 0, 0, 0, 0⟩, none, "today at noon on 2025-08-12"⟩ :=
  ⟨by decide, by decide,
   C3_today_beats_literal [] "today at noon on 2025-08-12" none
     ⟨daysFromCivil 2025 8 13, 12, 0, 0, 0⟩ (by decide)⟩

/-- C4: when no category pattern matches the query — or the literal-date
category matches but date extraction fails — and no weekday alias matches
either, the parser returns the universal fallback
`UpcomingEvents(days_ahead = 7, max_results = 10)`; there is no error
outcome. -/
theorem C4_universal_fallback (tzdb : List String) (q : String)
    (hint : Option String) (now : DT)
    (h1 : matches_patterns (lowerText (strText q)) patterns_today = false)
    (h2 : matches_patterns (lowerText (strText q)) patterns_tomorrow = false)
    (h3 : matches_patterns (lowerText (strText q)) patterns_yesterday = false)
    (h4 : matches_patterns (lowerText (strText q)) patterns_this_week = false)
    (h5 : matches_patterns (lowerText (strText q)) patterns_next_week = false)
    (h6 : matches_patterns (lowerText (strText q)) patterns_upcoming = false)
    (h7 : matches_patterns (lowerText (strText q)) patterns_specific_date = false ∨
          extract_specific_date (strText q) now = none)
    (h8 : extract_day_of_week (lowerText (strText q)) = none) :
    parse_query tzdb q hint now = ⟨.upcoming_events 7 10, hint, q⟩ := by
  unfold parse_query
  rcases h7 with h7 | h7 <;> simp [h1, h2, h3, h4, h5, h6, h7, h8]

/-- C4 witness: `"2/31/2025 meeting"` matches the literal-date category but
its extraction fails (February 31), and `"asdkjhasdf random text"` matches
nothing at all; both degrade to `UpcomingEvents(7, 10)`. -/
theorem C4_universal_fallback_witness :
    (matches_patterns (lowerText (strText "2/31/2025 meeting")) patterns_specific_date = true ∧
     extract_specific_date (strText "2/31/2025 meeting") ⟨daysFromCivil 2025 8 13, 15, 30, 0, 0⟩ = none ∧
     parse_query [] "2/31/2025 meeting" none ⟨daysFromCivil 2025 8 13, 15, 30, 0, 0⟩ =
       ⟨.upcoming_events 7 10, none, "2/31/2025 meeting"⟩) ∧
    parse_query [] "asdkjhasdf random text" none ⟨daysFromCivil 2025 8 13, 15, 30, 0, 0⟩ =
      ⟨.upcoming_events 7 10, none, "asdkjhasdf random text"⟩ :=
  ⟨⟨by decide, by decide,
    C4_universal_fallback [] "2/31/2025 meeting" none ⟨daysFromCivil 2025 8 13, 15, 30, 0, 0⟩
      (by decide) (by decide) (by decide) (by decide) (by decide) (by decide)
      (Or.inr (by decide)) (by decide)⟩,
   C4_universal_fallback [] "asdkjhasdf random text" none ⟨daysFromCivil 2025 8 13, 15, 30, 0, 0⟩
      (by decide) (by decide) (by decide) (by decide) (by decide) (by decide)
      (Or.inl (by decide)) (by decide)⟩

/-- C5: with weeks running Monday through Sunday, a `this_week` query
yields the range from the Monday on/before `now` at 00:00:00 (a Monday at
or before `now`, with `now` within the following six days) through the
Sunday six days later at 23:59:59.999999, and a `next_week` query yields
the strictly-future following Monday through the Sunday ending that week;
with `now` = Wednesday 2025-08-13, `"this week"` gives
[2025-08-11 00:00:00, 2025-08-17 23:59:59.999999] and `"next week"` gives
[2025-08-18 00:00:00, 2025-08-24 23:59:59.999999]. -/
theorem C5_week_boundaries (tzdb : List String) (hint : Option String) (now : DT) :
    parse_query tzdb "this week" hint now =
      ⟨.date_range ⟨now.days - now.weekday, 0, 0, 0, 0⟩
        ⟨now.days - now.weekday + 6, 23, 59, 59, 999999⟩, hint, "this week"⟩ ∧
    parse_query tzdb "next week" hint now =
      ⟨.date_range ⟨now.days + (7 - now.weekday), 0, 0, 0, 0⟩
        ⟨now.days + (7 - now.weekday) + 6, 23, 59, 59, 999999⟩, hint, "next week"⟩ ∧
    weekdayOf (now.days - now.weekday) = 0 ∧
    now.days - now.weekday ≤ now.days ∧
    now.days ≤ now.days - now.weekday + 6 ∧
    weekdayOf (now.days - now.weekday + 6) = 6 ∧
    weekdayOf (now.days + (7 - now.weekday)) = 0 ∧
    now.days < now.days + (7 - now.weekday) ∧
    weekdayOf (now.days + (7 - now.weekday) + 6) = 6 ∧
    parse_query [] "this week" none ⟨daysFromCivil 2025 8 13, 15, 30, 0, 0⟩ =
      ⟨.date_range ⟨daysFromCivil 2025 8 11, 0, 0, 0, 0⟩
        ⟨daysFromCivil 2025 8 17, 23, 59, 59, 999999⟩, none, "this week"⟩ ∧
    parse_query [] "next week" none ⟨daysFromCivil 2025 8 13, 15, 30, 0, 0⟩ =
      ⟨.date_range ⟨daysFromCivil 2025 8 18, 0, 0, 0, 0⟩
        ⟨daysFromCivil 2025 8 24, 23, 59, 59, 999999⟩, none, "next week"⟩ := by
  refine ⟨?_, ?_, ?_, ?_, ?_, ?_, ?_, ?_, ?_, ?_, ?_⟩
  · unfold parse_query
    norm_num [show matches_patterns (lowerText (strText "this week")) patterns_today = false from by decide,
      show matches_patterns (lowerText (strText "this week")) patterns_tomorrow = false from by decide,
      show matches_patterns (lowerText (strText "this week")) patterns_yesterday = false from by decide,
      show matches_patterns (lowerText (strText "this week")) patterns_this_week = true from by decide]
    constructor
    · simp [DT.addDays, DT.midnight, DT.weekday]
      try omega
    · rfl
  · unfold parse_query
    norm_num [show matches_patterns (lowerText (strText "next week")) patterns_today = false from by decide,
      show matches_patterns (lowerText (strText "next week")) patterns_tomorrow = false from by decide,
      show matches_patterns (lowerText (strText "next week")) patterns_yesterday = false from by decide,
      show matches_patterns (lowerText (strText "next week")) patterns_this_week = false from by decide,
      show matches_patterns (lowerText (strText "next week")) patterns_next_week = true from by decide]
    constructor
    · simp [DT.addDays, DT.midnight, DT.weekday]
      try omega
    · rfl
  · simp only [weekdayOf, DT.weekday]; omega
  · simp only [weekdayOf, DT.weekday]; omega
  · simp only [weekdayOf, DT.weekday]; omega
  · simp only [weekdayOf, DT.weekday]; omega
  · simp only [weekdayOf, DT.weekday]; omega
  · simp only [weekdayOf, DT.weekday]; omega
  · simp only [weekdayOf, DT.weekday]; omega
  · decide
  · decide

/-- C6: for every clock reading and every canonical weekday name, the
next-occurrence resolution (`delta = target - now.weekday()`, plus 7 when
`delta <= 0`) lands strictly after `now`'s date, at most 7 days later, on
the requested weekday, at 00:00:00. -/
theorem C6_next_weekday_strictly_future (now : DT) (target : String) (t : Int)
    (h : weekdays_ordinal (lowerStr target) = some t) :
    now.days < (get_next_weekday now target).days ∧
    (get_next_weekday now target).days ≤ now.days + 7 ∧
    weekdayOf (get_next_weekday now target).days = t ∧
    (get_next_weekday now target).hour = 0 ∧
    (get_next_weekday now target).minute = 0 ∧
    (get_next_weekday now target).second = 0 ∧
    (get_next_weekday now target).microsecond = 0 := by
  have ht : 0 ≤ t ∧ t ≤ 6 := by
    unfold weekdays_ordinal at h
    split_ifs at h <;> simp_all <;> omega
  unfold get_next_weekday
  rw [h]
  simp only [DT.addDays, DT.midnight, DT.weekday, weekdayOf]
  split_ifs <;> refine ⟨by omega, by omega, by omega, by trivial, by trivial, by trivial, by trivial⟩

/-- C6 witness: asking about `"monday"` when `now` is Monday 2025-08-11
yields 2025-08-18 (next week's Monday, not the current day), both through
the resolver and through the full parser. -/
theorem C6_next_weekday_strictly_future_witness :
    weekdays_ordinal (lowerStr "monday") = some 0 ∧
    get_next_weekday ⟨daysFromCivil 2025 8 11, 9, 0, 0, 0⟩ "monday" =
      ⟨daysFromCivil 2025 8 18, 0, 0, 0, 0⟩ ∧
    parse_query [] "monday" none ⟨daysFromCivil 2025 8 11, 9, 0, 0, 0⟩ =
      ⟨.specific_date ⟨daysFromCivil 2025 8 18, 0, 0, 0, 0⟩, none, "monday"⟩ ∧
    ((⟨daysFromCivil 2025 8 11, 9, 0, 0, 0⟩ : DT).days <
       (get_next_weekday ⟨daysFromCivil 2025 8 11, 9, 0, 0, 0⟩ "monday").days ∧
     (get_next_weekday ⟨daysFromCivil 2025 8 11, 9, 0, 0, 0⟩ "monday").days ≤
       (⟨daysFromCivil 2025 8 11, 9, 0, 0, 0⟩ : DT).days + 7 ∧
     weekdayOf (get_next_weekday ⟨daysFromCivil 2025 8 11, 9, 0, 0, 0⟩ "monday").days = 0 ∧
     (get_next_weekday ⟨daysFromCivil 2025 8 11, 9, 0, 0, 0⟩ "monday").hour = 0 ∧
     (get_next_weekday ⟨daysFromCivil 2025 8 11, 9, 0, 0, 0⟩ "monday").minute = 0 ∧
     (get_next_weekday ⟨daysFromCivil 2025 8 11, 9, 0, 0, 0⟩ "monday").second = 0 ∧
     (get_next_weekday ⟨daysFromCivil 2025 8 11, 9, 0, 0, 0⟩ "monday").microsecond = 0) :=
  ⟨by decide, by decide, by decide,
   C6_next_weekday_strictly_future ⟨daysFromCivil 2025 8 11, 9, 0, 0, 0⟩ "monday" 0 (by decide)⟩

/-- C7: quantity extraction follows the stated search orders — an exact
"next week"/"this week" phrase forces `days_ahead = 7` even when an
"N days" phrase is also present, otherwise "next N days" then "N days"
then the default 7; `max_results` is min(N, 50) from the
show/first/next ... events/appointments/meetings pattern, else 10 — and
the two extractions fall back silently and independently:
`"show me 75 events"` caps to 50 while its day count stays the default 7,
and `"next 3 days"` gives 3 days while its max-results stays 10. -/
theorem C7_quantity_extraction :
    (∀ t : Text, hasWeekPhrase t = true → extract_number_of_days t = 7) ∧
    (∀ t : Text, hasWeekPhrase t = false → searchNextNDays t = none →
      searchNDays t = none → extract_number_of_days t = 7) ∧
    (∀ t : Text, searchMaxResults t = none → extract_max_results t = 10) ∧
    extract_number_of_days (lowerText (strText "next 3 days")) = 3 ∧
    extract_number_of_days (lowerText (strText "in 5 days")) = 5 ∧
    extract_number_of_days (lowerText (strText "next week and 3 days")) = 7 ∧
    extract_max_results (lowerText (strText "show me 75 events")) = 50 ∧
    extract_max_results (lowerText (strText "first 5 appointments")) = 5 ∧
    extract_number_of_days (lowerText (strText "show me 75 events")) = 7 ∧
    extract_max_results (lowerText (strText "next 3 days")) = 10 := by
  refine ⟨?_, ?_, ?_, by decide, by decide, by decide, by decide, by decide, by decide, by decide⟩
  · intro t h
    unfold extract_number_of_days
    simp [h]
  · intro t h1 h2 h3
    unfold extract_number_of_days
    simp [h1, h2, h3]
  · intro t h
    unfold extract_max_results
    simp [h]

/-- C7 witness: the week-phrase tier applied to a concrete query that also
contains an "N days" phrase. -/
theorem C7_quantity_extraction_witness :
    hasWeekPhrase (lowerText (strText "this week and 3 days")) = true ∧
    extract_number_of_days (lowerText (strText "this week and 3 days")) = 7 :=
  ⟨by decide, C7_quantity_extraction.1 (lowerText (strText "this week and 3 days")) (by decide)⟩

/-- C8 counterexample: the claim that `days_ahead` always lies in [1, +∞)
fails on the code: the query `"upcoming next 0 days"` classifies as
`upcoming` and the day-count pattern `next (\d+) days` captures 0, so the
returned intent is `UpcomingEvents(days_ahead = 0, max_results = 10)`. -/
theorem C8_days_ahead_zero_counterexample :
    ¬ (∀ d m : Nat,
        (parse_query [] "upcoming next 0 days" none
          ⟨daysFromCivil 2025 8 13, 15, 30, 0, 0⟩).intent = Intent.upcoming_events d m →
        1 ≤ d) := by
  intro h
  exact absurd (h 0 10 (by decide)) (by decide)

/-- C8 amended: in every `ParsedQuery` whose intent is `UpcomingEvents`,
`max_results` never exceeds 50 regardless of what the query text requests,
and `days_ahead` is populated only from the quantity extractor on the
query text — which can yield 0, e.g. for "next 0 days" — or is the fixed
default 7 (paired with `max_results = 10` in the fallback). -/
theorem C8_upcoming_invariants (tzdb : List String) (q : String)
    (hint : Option String) (now : DT) (d m : Nat)
    (h : (parse_query tzdb q hint now).intent = Intent.upcoming_events d m) :
    m ≤ 50 ∧
    (d = extract_number_of_days (lowerText (strText q)) ∨ (d = 7 ∧ m = 10)) := by
  simp only [parse_query] at h
  split_ifs at h
  · simp only [Intent.upcoming_events.injEq] at h
    refine ⟨?_, Or.inl h.1.symm⟩
    rw [← h.2]
    exact extract_max_results_le _
  · split at h
    · simp at h
    · split at h
      · simp at h
      · simp only [Intent.upcoming_events.injEq] at h
        exact ⟨by omega, Or.inr ⟨h.1.symm, h.2.symm⟩⟩
  · split at h
    · simp at h
    · split at h
      · simp at h
      · simp only [Intent.upcoming_events.injEq] at h
        exact ⟨by omega, Or.inr ⟨h.1.symm, h.2.symm⟩⟩

/-- C8 amended witness: a plain `"upcoming"` query produces the defaults,
which satisfy the amended invariant. -/
theorem C8_upcoming_invariants_witness :
    (parse_query [] "upcoming" none ⟨daysFromCivil 2025 8 13, 15, 30, 0, 0⟩).intent =
      Intent.upcoming_events 7 10 ∧
    (10 ≤ 50 ∧
     (7 = extract_number_of_days (lowerText (strText "upcoming")) ∨ (7 = 7 ∧ 10 = 10))) :=
  ⟨by decide,
   C8_upcoming_invariants [] "upcoming" none ⟨daysFromCivil 2025 8 13, 15, 30, 0, 0⟩ 7 10 (by decide)⟩

/-- C9: when a matched date literal omits the year, the current year of
the injected clock reading is substituted and the instant is normalized to
midnight: `"meet on march 5"` extracts March 5 of `now`'s year at
00:00:00 for every `now`, and with `now.year = 2026` the full parser
returns the date 2026-03-05. -/
theorem C9_missing_year_substitution (tzdb : List String) (hint : Option String) (now : DT) :
    extract_specific_date (strText "meet on march 5") now =
      some ⟨daysFromCivil (yearOfDays now.days) 3 5, 0, 0, 0, 0⟩ ∧
    parse_query tzdb "meet on march 5" hint now =
      ⟨.specific_date ⟨daysFromCivil (yearOfDays now.days) 3 5, 0, 0, 0, 0⟩,
       hint, "meet on march 5"⟩ ∧
    parse_query [] "meet on march 5" none ⟨daysFromCivil 2026 1 15, 8, 0, 0, 0⟩ =
      ⟨.specific_date ⟨daysFromCivil 2026 3 5, 0, 0, 0, 0⟩, none, "meet on march 5"⟩ :=
  ⟨rfl, rfl, by decide⟩

/-- C10: weekday extraction scans the weekday table in the fixed order
monday..sunday and returns the first day any of whose aliases matches the
text — not the weekday whose alias appears earliest in the text — so any
text matching a monday alias resolves to monday. -/
theorem C10_weekday_table_order (t : Text)
    (h : matches_patterns t [word "monday", word "mon"] = true) :
    extract_day_of_week t = some "monday" := by
  unfold extract_day_of_week day_patterns
  simp [h]

/-- C10 witness: `"sunday or monday"` matches both a sunday alias and a
monday alias (sunday appearing first in the text), yet resolves to
monday, the earlier entry of the table. -/
theorem C10_weekday_table_order_witness :
    matches_patterns (lowerText (strText "sunday or monday")) [word "monday", word "mon"] = true ∧
    matches_patterns (lowerText (strText "sunday or monday")) [word "sunday", word "sun"] = true ∧
    extract_day_of_week (lowerText (strText "sunday or monday")) = some "monday" :=
  ⟨by decide, by decide,
   C10_weekday_table_order (lowerText (strText "sunday or monday")) (by decide)⟩

end CalendarParser
